import Mathlib

/-!
Shallow embedding of the tableau-twilio-webhooks repository
(src/webhooks.py and src/modules/broadcast.py) and proofs about it.

External effects of the Python code are made explicit parameters:
the environment (`String → Option String`), the startup clock reading and
the startup UUID (module import time), the per-request clock reading, the
Twilio client (a map from the index of a `create` call to its outcome),
and the Tableau server responses (the data-source page and pagination
total, and for the broadcast module the session key and broadcast list).
-/

namespace TW

/-- Configuration values read from `env_dict` after the startup check of
webhooks.py has passed; one field per required environment variable. -/
structure Config where
  tableau_username : String
  tableau_pat_name : String
  tableau_pat_secret : String
  tableau_ca_client : String
  tableau_ca_secret_id : String
  tableau_ca_secret_value : String
  tableau_sitename : String
  tableau_server : String
  twilio_account_sid : String
  twilio_auth_token : String
  twilio_from_number : String
  twilio_to_number : String
  whatsapp_from : String
  whatsapp_to : String
deriving DecidableEq

/-- The `env_vars` list of webhooks.py (lines 14-29), in source order. -/
def env_vars : List String :=
  [ "TABLEAU_USERNAME",
    "TABLEAU_PAT_NAME",
    "TABLEAU_PAT_SECRET",
    "TABLEAU_CA_CLIENT",
    "TABLEAU_CA_SECRET_ID",
    "TABLEAU_CA_SECRET_VALUE",
    "TABLEAU_SITENAME",
    "TABLEAU_SERVER",
    "TWILIO_ACCOUNT_SID",
    "TWILIO_AUTH_TOKEN",
    "TWILIO_FROM_NUMBER",
    "TWILIO_TO_NUMBER",
    "WHATSAPP_FROM",
    "WHATSAPP_TO" ]

/-- The RuntimeError message raised by webhooks.py when variable `v` is missing. -/
def missingMsg (v : String) : String :=
  "Environment variable " ++ v ++ " is not available, server shutting down..."

/-- The startup loop of webhooks.py (lines 32-38): walk the `env_vars` list in
order, looking each variable up in `env_dict`; the first lookup that fails
raises a RuntimeError naming that variable. -/
def checkVars (env : String → Option String) : List String → Except String Unit
  | [] => Except.ok ()
  | v :: rest =>
    match env v with
    | some _ => checkVars env rest
    | none => Except.error (missingMsg v)

/-- Module import of webhooks.py validates the whole `env_vars` list. -/
def startupCheck (env : String → Option String) : Except String Unit :=
  checkVars env env_vars

/-- JWT header as built in `header_data` (iss, kid, alg). -/
structure JwtHeader where
  iss : String
  kid : String
  alg : String
deriving DecidableEq

/-- JWT claim set as built in `payload_data`. `exp` is a UTC timestamp in
seconds; `["tableau:content:read", "tableau:workbooks:create"]` is the fixed
scope list. -/
structure PayloadData where
  iss : String
  sub : String
  aud : String
  exp : Nat
  jti : String
  scp : List String
deriving DecidableEq

/-- Canonical serialization of a JWT header, standing in for its JSON/base64url
form inside the signed message. -/
def serializeJwtHeader (h : JwtHeader) : String :=
  h.iss ++ "|" ++ h.kid ++ "|" ++ h.alg

/-- Canonical serialization of the claim set, standing in for its
JSON/base64url form inside the signed message. -/
def serializePayload (p : PayloadData) : String :=
  p.iss ++ "|" ++ p.sub ++ "|" ++ p.aud ++ "|" ++ toString p.exp ++ "|"
    ++ p.jti ++ "|" ++ String.intercalate "," p.scp

/-- HMAC-SHA256 modelled symbolically: the tag is determined by the key and
the message, and verification recomputes it and compares. -/
def hmacSha256 (key msg : String) : String :=
  "HMACSHA256(" ++ key ++ ";" ++ msg ++ ")"

/-- A signed token: header, claim set and signature over both. -/
structure Jwt where
  header : JwtHeader
  payload : PayloadData
  sig : String
deriving DecidableEq

/-- PyJWT `jwt.encode(payload, key, headers)`: sign header and payload with
the shared secret. -/
def jwtEncode (payload : PayloadData) (key : String) (headers : JwtHeader) : Jwt :=
  { header := headers
    payload := payload
    sig := hmacSha256 key (serializeJwtHeader headers ++ "." ++ serializePayload payload) }

/-- PyJWT `jwt.decode(jwt, key, audience, algorithms)` at wall-clock `now`:
check the algorithm is the allowed one, recompute and compare the signature,
check the audience claim, and reject an expired token; on success return the
claim set, otherwise fail (PyJWT raises). -/
def jwtDecode (token : Jwt) (key : String) (audience : String)
    (algorithms : String) (now : Nat) : Option PayloadData :=
  if token.header.alg = algorithms
      ∧ token.sig = hmacSha256 key
          (serializeJwtHeader token.header ++ "." ++ serializePayload token.payload)
      ∧ token.payload.aud = audience
      ∧ now < token.payload.exp
  then some token.payload else none

/-- `header_data` of webhooks.py (lines 41-45). -/
def header_data (cfg : Config) : JwtHeader :=
  { iss := cfg.tableau_ca_client
    kid := cfg.tableau_ca_secret_id
    alg := "HS256" }

/-- `payload_data` of webhooks.py (lines 47-54). It is built ONCE, at module
import: `startupTime` is the `datetime.datetime.utcnow()` reading and
`startupJti` the `str(uuid.uuid4())` drawn at that moment; `exp` is startup
time plus 5 minutes (300 seconds). -/
def payload_data (cfg : Config) (startupTime : Nat) (startupJti : String) : PayloadData :=
  { iss := cfg.tableau_ca_client
    sub := cfg.tableau_username
    aud := "tableau"
    exp := startupTime + 5 * 60
    jti := startupJti
    scp := ["tableau:content:read", "tableau:workbooks:create"] }

/-- Observable actions of the /broadcast handler. `updaterCall` is the
vocabulary for invoking modules/broadcast.update; the handler body of
webhooks.py contains no such call. -/
inductive BEvent
  | encodeToken (tok : Jwt)
  | decodeToken (claims : PayloadData)
  | updaterCall (workbook_id : String)
deriving DecidableEq

/-- A Flask handler result: a plain string return (Flask serves it with
status 200) or a `redirect(url_for(...))` (status 302). -/
inductive HResponse
  | text (body : String)
  | redirectTo (path : String)
deriving DecidableEq

/-- HTTP status Flask attaches to each handler result. -/
def statusOf : HResponse → Nat
  | .text _ => 200
  | .redirectTo _ => 302

/-- The token signed inside the POST branch of the /broadcast handler
(webhooks.py lines 83-88): `jwt.encode(payload_data, connected_app_secret,
header_data)`, with the module-level `payload_data`. -/
def issuedToken (cfg : Config) (st : Nat) (sjti : String) : Jwt :=
  jwtEncode (payload_data cfg st sjti) cfg.tableau_ca_secret_value (header_data cfg)

/-- The /broadcast handler (webhooks.py lines 76-107). `st`/`sjti` are the
module-import clock reading and UUID fixed at startup; `callTime` is the
wall clock when this request is handled. POST encodes the module-level
payload, decodes the result as a self-check (raising if it fails, e.g. on an
expired token) and returns "200 SUCCESS"; GET redirects to the index; any
other method falls to the final else branch. The returned list records the
handler's observable actions in order. -/
def broadcast (cfg : Config) (st : Nat) (sjti : String)
    (method : String) (callTime : Nat) : List BEvent × Except String HResponse :=
  if method = "POST" then
    let token := issuedToken cfg st sjti
    match jwtDecode token cfg.tableau_ca_secret_value
        (payload_data cfg st sjti).aud (header_data cfg).alg callTime with
    | some claims =>
        ([BEvent.encodeToken token, BEvent.decodeToken claims],
         Except.ok (HResponse.text "200 SUCCESS"))
    | none =>
        ([BEvent.encodeToken token], Except.error "jwt.decode raised")
  else if method = "GET" then
    ([], Except.ok (HResponse.redirectTo "/"))
  else
    ([], Except.ok (HResponse.text "400 Bad Request: method not supported"))

/-- First token encoded in a handler trace, if any. -/
def firstTokenOf : List BEvent → Option Jwt
  | BEvent.encodeToken t :: _ => some t
  | _ => none

/-- Whether a handler action is a token encoding. -/
def isEncodeEvent : BEvent → Bool
  | BEvent.encodeToken _ => true
  | _ => false

/-- Whether a handler action is a call into modules/broadcast.update. -/
def isUpdaterEvent : BEvent → Bool
  | BEvent.updaterCall _ => true
  | _ => false

/-- A data source record as read from the Tableau server (name, description,
updated_at are the three attributes webhooks.py uses). -/
structure DataSource where
  name : String
  description : String
  updated_at : String
deriving DecidableEq

/-- `msgStr` built for each data source in the notifier loop
(webhooks.py line 131). -/
def msgStr (ds : DataSource) : String :=
  "Datasource Refresh failed\n\tName:" ++ ds.name ++ "\n\tDescription:"
    ++ ds.description ++ "\n\tLast updated: " ++ ds.updated_at ++ "\n"

/-- The three Twilio channels used by the notifier. -/
inductive Channel
  | sms
  | whatsapp
  | voice
deriving DecidableEq

/-- An outbound Twilio request: `payload` is the `body` kwarg for
`messages.create` and the `twiml` kwarg for `calls.create`. -/
structure Message where
  channel : Channel
  payload : String
  from_ : String
  to_ : String
deriving DecidableEq

/-- The TwiML wrapper around the spoken text of the voice call
(webhooks.py line 148). -/
def sayText (s : String) : String :=
  "<Response><Say>" ++ s ++ "</Say></Response>"

/-- The SMS send of the notifier loop (webhooks.py lines 135-139). -/
def smsMsg (cfg : Config) (body : String) : Message :=
  { channel := Channel.sms
    payload := body
    from_ := cfg.twilio_from_number
    to_ := cfg.twilio_to_number }

/-- The WhatsApp send of the notifier loop (webhooks.py lines 142-146). -/
def waMsg (cfg : Config) (body : String) : Message :=
  { channel := Channel.whatsapp
    payload := body
    from_ := cfg.whatsapp_from
    to_ := cfg.whatsapp_to }

/-- The voice call of the notifier loop (webhooks.py lines 148-152): the
spoken text is `body`, wrapped in TwiML, sent between the SMS numbers. -/
def callMsg (cfg : Config) (body : String) : Message :=
  { channel := Channel.voice
    payload := sayText body
    from_ := cfg.twilio_from_number
    to_ := cfg.twilio_to_number }

/-- One `logFile.write(...)` call of the notifier, by call site. -/
inductive LogWrite
  | header (time : String) (total : Nat)
  | dsEntry (s : String)
  | smsSid (sid f t : String)
  | waSid (sid f t : String)
  | callSid (sid f t : String)
deriving DecidableEq

/-- The exact string each `logFile.write(...)` call appends to log.txt. -/
def renderWrite : LogWrite → String
  | LogWrite.header time total =>
      "\n" ++ time ++ ": There are " ++ toString total ++ " datasources on site\n"
  | LogWrite.dsEntry s => s
  | LogWrite.smsSid sid f t =>
      "Text message SID: " ++ sid ++ "\nSending SMS message from " ++ f ++ " to " ++ t ++ "\n"
  | LogWrite.waSid sid f t =>
      "Whatsapp message SID: " ++ sid ++ "\nSending Whatsapp message from " ++ f ++ " to " ++ t ++ "\n"
  | LogWrite.callSid sid f t =>
      "Call SID: " ++ sid ++ "\nAutomated call from " ++ f ++ " to " ++ t ++ "\n"

/-- The notifier's per-data-source loop (webhooks.py lines 129-153).
`twilio n` is the outcome of the n-th Twilio `create` call from this point
on: either the SID of the delivered message/call, or an exception. Each
iteration writes the data-source line, then attempts SMS, WhatsApp and voice
call in order, writing one SID line after each successful send; the first
exception aborts the loop (no per-item try/except) and is returned. The
result is (messages actually sent, log writes performed, raised exception
if any). -/
def notifyLoop (cfg : Config) (twilio : Nat → Except String String) :
    List DataSource → List Message × List LogWrite × Option String
  | [] => ([], [], none)
  | ds :: rest =>
    let s := msgStr ds
    match twilio 0 with
    | Except.error e => ([], [LogWrite.dsEntry s], some e)
    | Except.ok sid1 =>
      match twilio 1 with
      | Except.error e =>
          ([smsMsg cfg s],
           [LogWrite.dsEntry s,
            LogWrite.smsSid sid1 cfg.twilio_from_number cfg.twilio_to_number],
           some e)
      | Except.ok sid2 =>
        match twilio 2 with
        | Except.error e =>
            ([smsMsg cfg s, waMsg cfg s],
             [LogWrite.dsEntry s,
              LogWrite.smsSid sid1 cfg.twilio_from_number cfg.twilio_to_number,
              LogWrite.waSid sid2 cfg.whatsapp_from cfg.whatsapp_to],
             some e)
        | Except.ok sid3 =>
            let r := notifyLoop cfg (fun n => twilio (n + 3)) rest
            (smsMsg cfg s :: waMsg cfg s :: callMsg cfg s :: r.1,
             LogWrite.dsEntry s
               :: LogWrite.smsSid sid1 cfg.twilio_from_number cfg.twilio_to_number
               :: LogWrite.waSid sid2 cfg.whatsapp_from cfg.whatsapp_to
               :: LogWrite.callSid sid3 cfg.twilio_from_number cfg.twilio_to_number
               :: r.2.1,
             r.2.2)

/-- The /notifier handler (webhooks.py lines 110-164). POST signs in to the
Tableau server and calls `server.datasources.get()`; `datasources` is the
returned page and `total_available` the pagination item's site-wide total.
It writes the header line, runs the loop, and returns "200 SUCCESS" if no
send raised; a raised exception propagates uncaught out of the handler
(Flask turns it into a 500). GET redirects to the index; any other method
falls to the final else branch. `current_time` is `datetime.datetime.now()`
rendered as a string. -/
def notify (cfg : Config) (twilio : Nat → Except String String)
    (current_time : String) (datasources : List DataSource)
    (total_available : Nat) (method : String) :
    List Message × List LogWrite × Except String HResponse :=
  if method = "POST" then
    let r := notifyLoop cfg twilio datasources
    (r.1,
     LogWrite.header current_time total_available :: r.2.1,
     match r.2.2 with
     | none => Except.ok (HResponse.text "200 SUCCESS")
     | some e => Except.error e)
  else if method = "GET" then
    ([], [], Except.ok (HResponse.redirectTo "/"))
  else
    ([], [], Except.ok (HResponse.text "400 Bad Request: method not supported"))

/-- A Twilio client whose n-th create call succeeds with SID `sids n`. -/
def okOutcome (sids : Nat → String) : Nat → Except String String :=
  fun n => Except.ok (sids n)

/-- A Twilio client whose k-th create call raises and every other call
succeeds with SID `sids n`. -/
def failAt (k : Nat) (sids : Nat → String) : Nat → Except String String :=
  fun n => if n = k then Except.error "TwilioRestException" else Except.ok (sids n)

/-- The message triple the loop sends per data source when nothing raises:
SMS, WhatsApp and voice call, all built from that data source's `msgStr`. -/
def tripleMsgs (cfg : Config) : List DataSource → List Message
  | [] => []
  | ds :: rest =>
      smsMsg cfg (msgStr ds) :: waMsg cfg (msgStr ds) :: callMsg cfg (msgStr ds)
        :: tripleMsgs cfg rest

/-- The log writes the loop performs per data source when nothing raises. -/
def tripleLogs (cfg : Config) (sids : Nat → String) :
    List DataSource → List LogWrite
  | [] => []
  | ds :: rest =>
      LogWrite.dsEntry (msgStr ds)
        :: LogWrite.smsSid (sids 0) cfg.twilio_from_number cfg.twilio_to_number
        :: LogWrite.waSid (sids 1) cfg.whatsapp_from cfg.whatsapp_to
        :: LogWrite.callSid (sids 2) cfg.twilio_from_number cfg.twilio_to_number
        :: tripleLogs cfg (fun n => sids (n + 3)) rest

/-- Whether a log write starts a log block: the header line or a
data-source entry (the SID lines continue the block of their data source). -/
def isBlockStart : LogWrite → Bool
  | LogWrite.header _ _ => true
  | LogWrite.dsEntry _ => true
  | _ => false

/-- Number of log blocks in a sequence of log writes. -/
def logBlocks (l : List LogWrite) : Nat :=
  (l.filter isBlockStart).length

/-- Whether a log write is the header line. -/
def isHeaderWrite : LogWrite → Bool
  | LogWrite.header _ _ => true
  | _ => false

/-- A broadcast resource on the site, carrying the workbook it is
associated with. -/
structure Broadcast where
  id : String
  workbook_id : String
deriving DecidableEq

/-- A performed update_broadcast REST call: which broadcast was updated,
under which API key, with which two boolean flags. -/
structure BroadcastUpdateCall where
  api_key : String
  target : Broadcast
  flag1 : Bool
  flag2 : Bool
deriving DecidableEq

/-- Modelled from the spec: `libs.tableau_rest.update_broadcast` is imported
by src/modules/broadcast.py but the libs module is not under src. Per the
spec, it locates the broadcast associated with the given workbook among the
fetched broadcasts and triggers its update with the two boolean flags; given
a workbook identifier matching no broadcast it fails rather than silently
updating an arbitrary resource. -/
def update_broadcast (api_key : String) (broadcasts : List Broadcast)
    (workbook_id : String) (flag1 flag2 : Bool) : Except String BroadcastUpdateCall :=
  match broadcasts.find? (fun b => b.workbook_id == workbook_id) with
  | some b => Except.ok { api_key := api_key, target := b, flag1 := flag1, flag2 := flag2 }
  | none => Except.error ("no broadcast found for workbook " ++ workbook_id)

/-- The Tableau REST interface seen by modules/broadcast.py, modelled from
the spec: authenticating with a signed token yields an API session key, and
the site has a list of broadcast resources. -/
structure TableauRestApi where
  session_key : Jwt → String
  site_broadcasts : List Broadcast

/-- Steps modules/broadcast.update performs, in order. -/
inductive UpdateStep
  | encoded (tok : Jwt)
  | authed (api_key : String)
  | fetchedBroadcasts (bs : List Broadcast)
  | updatedBroadcast (c : BroadcastUpdateCall)
deriving DecidableEq

/-- Whether a step is the update_broadcast call itself. -/
def isUpdatedStep : UpdateStep → Bool
  | UpdateStep.updatedBroadcast _ => true
  | _ => false

/-- Embedding of `update` in src/modules/broadcast.py. The imported libs
module is not under src; `connected_apps.encode` is modelled from the spec
as the Token Issuer (§4.1/§4.4: "authenticate via signed token"), and
`tableau_rest.auth` / `get_broadcasts` as the `TableauRestApi` interface.
The function encodes a token, authenticates to get an API key, fetches all
broadcasts on the site, and calls update_broadcast with both flags False. -/
def update (cfg : Config) (st : Nat) (sjti : String)
    (srv : TableauRestApi) (workbook_id : String) :
    List UpdateStep × Except String Unit :=
  let tok := issuedToken cfg st sjti
  let api_key := srv.session_key tok
  let broadcasts := srv.site_broadcasts
  match update_broadcast api_key broadcasts workbook_id false false with
  | Except.ok c =>
      ([UpdateStep.encoded tok, UpdateStep.authed api_key,
        UpdateStep.fetchedBroadcasts broadcasts, UpdateStep.updatedBroadcast c],
       Except.ok ())
  | Except.error e =>
      ([UpdateStep.encoded tok, UpdateStep.authed api_key,
        UpdateStep.fetchedBroadcasts broadcasts],
       Except.error e)

/-! Concrete fixtures used to instantiate the theorems below. -/

/-- A fully populated configuration. -/
def cfgEx : Config :=
  { tableau_username := "user@example.com"
    tableau_pat_name := "pat-name"
    tableau_pat_secret := "pat-secret"
    tableau_ca_client := "ca-client-id"
    tableau_ca_secret_id := "ca-secret-id"
    tableau_ca_secret_value := "ca-secret-value"
    tableau_sitename := "mysite"
    tableau_server := "https://tableau.example.com"
    twilio_account_sid := "AC000"
    twilio_auth_token := "twilio-token"
    twilio_from_number := "+15550001111"
    twilio_to_number := "+15550002222"
    whatsapp_from := "whatsapp:+15550001111"
    whatsapp_to := "whatsapp:+15550002222" }

/-- A sample data source. -/
def dsEx : DataSource :=
  { name := "Sales", description := "sales extract", updated_at := "2022-01-01 00:00:00" }

/-- An environment in which every required variable except
TWILIO_AUTH_TOKEN is set. -/
def envMissingTw : String → Option String :=
  fun s => if s = "TWILIO_AUTH_TOKEN" then none else some "x"

/-- A sample claim set. -/
def pEx : PayloadData :=
  { iss := "ca-client-id", sub := "user@example.com", aud := "tableau",
    exp := 300, jti := "5f2c-uuid", scp := ["tableau:content:read", "tableau:workbooks:create"] }

/-- A sample JWT header. -/
def hdrEx : JwtHeader :=
  { iss := "ca-client-id", kid := "ca-secret-id", alg := "HS256" }

/-- A sample broadcast resource. -/
def bEx : Broadcast := { id := "bc-1", workbook_id := "wb-1" }

/-- A Tableau REST interface whose site holds exactly `bEx`. -/
def srvEx : TableauRestApi :=
  { session_key := fun _ => "api-key-1", site_broadcasts := [bEx] }

/-! Helper lemmas about the notifier loop. -/

/-- When no Twilio call raises, the loop sends the full triple per data
source, performs the full block of log writes per data source, and raises
nothing. -/
theorem notifyLoop_ok (cfg : Config) (sids : Nat → String) (dss : List DataSource) :
    notifyLoop cfg (okOutcome sids) dss
      = (tripleMsgs cfg dss, tripleLogs cfg sids dss, none) := by
  induction dss generalizing sids with
  | nil => rfl
  | cons ds rest ih =>
      simp only [notifyLoop, okOutcome, tripleMsgs, tripleLogs]
      rw [show (fun n => (Except.ok (sids (n + 3)) : Except String String))
            = okOutcome (fun n => sids (n + 3)) from rfl, ih]

/-- The all-success message list holds three messages per data source. -/
theorem tripleMsgs_length (cfg : Config) (dss : List DataSource) :
    (tripleMsgs cfg dss).length = 3 * dss.length := by
  induction dss with
  | nil => rfl
  | cons ds rest ih =>
      simp only [tripleMsgs, List.length_cons, ih]
      ring

/-- The all-success loop log holds one block per data source. -/
theorem tripleLogs_blocks (cfg : Config) (sids : Nat → String) (dss : List DataSource) :
    logBlocks (tripleLogs cfg sids dss) = dss.length := by
  induction dss generalizing sids with
  | nil => rfl
  | cons ds rest ih =>
      simp only [tripleLogs, logBlocks, List.filter, isBlockStart, List.length_cons]
      simpa [logBlocks] using ih (fun n => sids (n + 3))

/-- The loop never writes the header line, whatever the Twilio outcomes. -/
theorem notifyLoop_no_header (cfg : Config) (twilio : Nat → Except String String)
    (dss : List DataSource) :
    (notifyLoop cfg twilio dss).2.1.filter isHeaderWrite = [] := by
  induction dss generalizing twilio with
  | nil => rfl
  | cons ds rest ih =>
      simp only [notifyLoop]
      cases h0 : twilio 0 with
      | error e => simp [isHeaderWrite, List.filter]
      | ok sid1 =>
        cases h1 : twilio 1 with
        | error e => simp [isHeaderWrite, List.filter]
        | ok sid2 =>
          cases h2 : twilio 2 with
          | error e => simp [isHeaderWrite, List.filter]
          | ok sid3 => simp [isHeaderWrite, List.filter, ih]

/-- If the k-th Twilio create call raises and k falls inside this run, the
loop sends exactly the first k messages of the all-success run (the failing
send and everything after it never execute, and nothing already sent is
undone), its log writes are a prefix of the all-success log writes, and the
exception is returned. -/
theorem notifyLoop_fail (cfg : Config) (sids : Nat → String) (dss : List DataSource)
    (k : Nat) (hk : k < 3 * dss.length) :
    (notifyLoop cfg (failAt k sids) dss).1 = (tripleMsgs cfg dss).take k
    ∧ (∃ t, tripleLogs cfg sids dss = (notifyLoop cfg (failAt k sids) dss).2.1 ++ t)
    ∧ (notifyLoop cfg (failAt k sids) dss).2.2 = some "TwilioRestException" := by
  induction dss generalizing sids k with
  | nil => simp at hk
  | cons ds rest ih =>
      rcases k with _ | _ | _ | k
      · refine ⟨by simp [notifyLoop, failAt, tripleMsgs], ?_,
          by simp [notifyLoop, failAt]⟩
        simp only [notifyLoop, failAt, tripleLogs]
        simp only [reduceIte]
        exact ⟨_, rfl⟩
      · refine ⟨by simp [notifyLoop, failAt, tripleMsgs], ?_,
          by simp [notifyLoop, failAt]⟩
        simp only [notifyLoop, failAt, tripleLogs]
        simp only [reduceIte]
        exact ⟨_, rfl⟩
      · refine ⟨by simp [notifyLoop, failAt, tripleMsgs], ?_,
          by simp [notifyLoop, failAt]⟩
        simp only [notifyLoop, failAt, tripleLogs]
        simp only [reduceIte]
        exact ⟨_, rfl⟩
      · have hk3 : k + 1 + 1 + 1 = k + 3 := by omega
        rw [hk3] at hk ⊢
        have hk' : k < 3 * rest.length := by
          simp only [List.length_cons] at hk
          omega
        have e0 : failAt (k + 3) sids 0 = Except.ok (sids 0) := by
          unfold failAt
          rw [if_neg (by omega)]
        have e1 : failAt (k + 3) sids 1 = Except.ok (sids 1) := by
          unfold failAt
          rw [if_neg (by omega)]
        have e2 : failAt (k + 3) sids 2 = Except.ok (sids 2) := by
          unfold failAt
          rw [if_neg (by omega)]
        have hfun : (fun n => failAt (k + 3) sids (n + 3))
            = failAt k (fun n => sids (n + 3)) := by
          funext n
          unfold failAt
          by_cases h : n = k
          · subst h
            simp
          · rw [if_neg (by omega), if_neg h]
        obtain ⟨h1, ⟨t, h2⟩, h3⟩ := ih (fun n => sids (n + 3)) k hk'
        simp only [notifyLoop, e0, e1, e2, hfun, tripleMsgs, tripleLogs]
        refine ⟨?_, ⟨t, ?_⟩, h3⟩
        · rw [h1]
          rfl
        · rw [h2]
          rfl

/-- If exactly one listed variable is missing, the startup check walks the
list and errors at that variable. -/
theorem checkVars_first_missing (env : String → Option String) (v : String)
    (l : List String) (hv : v ∈ l) (hmiss : env v = none)
    (hothers : ∀ w ∈ l, w ≠ v → (env w).isSome) :
    checkVars env l = Except.error (missingMsg v) := by
  induction l with
  | nil => exact absurd hv (List.not_mem_nil v)
  | cons w rest ih =>
      by_cases hw : w = v
      · subst hw
        simp only [checkVars, hmiss]
      · have hws := hothers w (List.mem_cons_self w rest) hw
        obtain ⟨x, hx⟩ := Option.isSome_iff_exists.mp hws
        have hvr : v ∈ rest := by
          rcases List.mem_cons.mp hv with h | h
          · exact absurd h.symm hw
          · exact h
        simp only [checkVars, hx]
        exact ih hvr (fun u hu hne => hothers u (List.mem_cons_of_mem w hu) hne)

/-! Claim theorems. -/

/-- C5: if any one required environment variable is absent and every other
required variable is present, the startup check refuses to start and aborts
with the RuntimeError message naming exactly that (first missing) variable;
this holds for every variable in the `env_vars` list. -/
theorem C5_missing_env_aborts_startup (env : String → Option String) (v : String)
    (hv : v ∈ env_vars) (hmiss : env v = none)
    (hothers : ∀ w ∈ env_vars, w ≠ v → (env w).isSome) :
    startupCheck env = Except.error (missingMsg v) :=
  checkVars_first_missing env v env_vars hv hmiss hothers

/-- Witness for C5: an environment with every variable but TWILIO_AUTH_TOKEN
set fails startup naming TWILIO_AUTH_TOKEN. -/
theorem C5_missing_env_aborts_startup_witness :
    "TWILIO_AUTH_TOKEN" ∈ env_vars
    ∧ envMissingTw "TWILIO_AUTH_TOKEN" = none
    ∧ (∀ w ∈ env_vars, w ≠ "TWILIO_AUTH_TOKEN" → (envMissingTw w).isSome)
    ∧ startupCheck envMissingTw = Except.error (missingMsg "TWILIO_AUTH_TOKEN") :=
  ⟨by decide, by decide, by decide,
   C5_missing_env_aborts_startup envMissingTw "TWILIO_AUTH_TOKEN"
     (by decide) (by decide) (by decide)⟩

/-- C4: token round-trip. For any claim set, secret and header, encoding and
then decoding with the same secret and the claim set's audience, before the
expiry, returns the original claim set (in particular the subject, issuer
and scope list) unchanged. -/
theorem C4_token_round_trip (p : PayloadData) (key : String) (hdr : JwtHeader)
    (now : Nat) (hexp : now < p.exp) :
    jwtDecode (jwtEncode p key hdr) key p.aud hdr.alg now = some p := by
  simp [jwtDecode, jwtEncode, hexp]

/-- Witness for C4 at a concrete claim set, secret and header. -/
theorem C4_token_round_trip_witness :
    0 < pEx.exp
    ∧ jwtDecode (jwtEncode pEx "ca-secret-value" hdrEx) "ca-secret-value"
        pEx.aud hdrEx.alg 0 = some pEx :=
  ⟨by decide, C4_token_round_trip pEx "ca-secret-value" hdrEx 0 (by decide)⟩

set_option maxRecDepth 8192 in
/-- C1 counterexample: two POST /broadcast calls of one process, handled at
wall-clock times 10 and 20, issue credentials with the SAME unique request
ID (the startup UUID) and the SAME expiry 300 — which is startup time (0)
plus 5 minutes, not issue time plus 5 minutes — because `payload_data` is
built once at module import, not per call. -/
theorem C1_same_jti_and_exp_counterexample :
    (firstTokenOf (broadcast cfgEx 0 "5f2c-uuid" "POST" 10).1).map
        (fun tok => tok.payload.jti) = some "5f2c-uuid"
    ∧ (firstTokenOf (broadcast cfgEx 0 "5f2c-uuid" "POST" 20).1).map
        (fun tok => tok.payload.jti) = some "5f2c-uuid"
    ∧ (firstTokenOf (broadcast cfgEx 0 "5f2c-uuid" "POST" 10).1).map
        (fun tok => tok.payload.exp) = some 300
    ∧ (firstTokenOf (broadcast cfgEx 0 "5f2c-uuid" "POST" 20).1).map
        (fun tok => tok.payload.exp) = some 300 :=
  ⟨rfl, rfl, rfl, rfl⟩

/-- C1 (amended): every POST /broadcast call signs the single module-level
payload built at startup: the issued token's unique request ID is the one
UUID drawn at module import and its expiry is startup time plus 5 minutes,
independent of the call's own time. -/
theorem C1_token_fixed_at_startup (cfg : Config) (st : Nat) (sjti : String) (t : Nat) :
    firstTokenOf (broadcast cfg st sjti "POST" t).1 = some (issuedToken cfg st sjti)
    ∧ (issuedToken cfg st sjti).payload.jti = sjti
    ∧ (issuedToken cfg st sjti).payload.exp = st + 5 * 60 := by
  refine ⟨?_, rfl, rfl⟩
  simp only [broadcast, reduceIte]
  split <;> rfl

set_option maxRecDepth 8192 in
/-- C2 (code bug): at the failing input — a POST to /broadcast — the handler
encodes the token, decodes it as a self-check and returns "200 SUCCESS",
but performs no Broadcast Updater call at all: its action list contains no
updater event, although the handler's own comment says it handles updating
broadcasts and modules/broadcast.update exists in the repository, uncalled. -/
theorem C2_post_broadcast_never_calls_updater :
    (broadcast cfgEx 0 "5f2c-uuid" "POST" 10).2
        = Except.ok (HResponse.text "200 SUCCESS")
    ∧ (broadcast cfgEx 0 "5f2c-uuid" "POST" 10).1.filter isUpdaterEvent = []
    ∧ (broadcast cfgEx 0 "5f2c-uuid" "POST" 10).1
        = [BEvent.encodeToken (issuedToken cfgEx 0 "5f2c-uuid"),
           BEvent.decodeToken (payload_data cfgEx 0 "5f2c-uuid")] :=
  ⟨rfl, rfl, rfl⟩

/-- C3: with every Twilio send succeeding and the fetched page holding all
N data sources on the site (total_available = N), a POST to /notifier sends
the SMS/WhatsApp/call triple per data source — 3N messages — and appends
N+1 log blocks: the header line plus one block per data source, and returns
"200 SUCCESS"; with N = 0 exactly the header line is written and no message
is sent. -/
theorem C3_notifier_counts (cfg : Config) (sids : Nat → String) (now : String)
    (dss : List DataSource) :
    (notify cfg (okOutcome sids) now dss dss.length "POST").1 = tripleMsgs cfg dss
    ∧ (notify cfg (okOutcome sids) now dss dss.length "POST").1.length = 3 * dss.length
    ∧ logBlocks (notify cfg (okOutcome sids) now dss dss.length "POST").2.1
        = dss.length + 1
    ∧ (notify cfg (okOutcome sids) now dss dss.length "POST").2.2
        = Except.ok (HResponse.text "200 SUCCESS")
    ∧ notify cfg (okOutcome sids) now [] 0 "POST"
        = ([], [LogWrite.header now 0], Except.ok (HResponse.text "200 SUCCESS")) := by
  have hok := notifyLoop_ok cfg sids dss
  have hblocks := tripleLogs_blocks cfg sids dss
  have hlen := tripleMsgs_length cfg dss
  refine ⟨?_, ?_, ?_, ?_, ?_⟩
  · simp [notify, hok]
  · simp [notify, hok, hlen]
  · simp only [logBlocks] at hblocks ⊢
    simp [notify, hok, List.filter_cons, isBlockStart, hblocks]
  · simp [notify, hok]
  · simp [notify, notifyLoop]

/-- C6: if the k-th Twilio send of a POST /notifier batch raises while k
falls inside the batch, the messages actually sent are exactly the first k
of the all-success run (the sends after the failure never execute), the log
writes performed are a prefix of the all-success log (nothing already done
is rolled back), and the exception propagates out of the handler instead of
any partial-success report. -/
theorem C6_failed_send_aborts (cfg : Config) (sids : Nat → String) (now : String)
    (dss : List DataSource) (total k : Nat) (hk : k < 3 * dss.length) :
    (notify cfg (failAt k sids) now dss total "POST").1
        = ((notify cfg (okOutcome sids) now dss total "POST").1).take k
    ∧ (∃ t, (notify cfg (okOutcome sids) now dss total "POST").2.1
        = (notify cfg (failAt k sids) now dss total "POST").2.1 ++ t)
    ∧ (notify cfg (failAt k sids) now dss total "POST").2.2
        = Except.error "TwilioRestException" := by
  obtain ⟨h1, ⟨t, h2⟩, h3⟩ := notifyLoop_fail cfg sids dss k hk
  have hok := notifyLoop_ok cfg sids dss
  refine ⟨?_, ⟨t, ?_⟩, ?_⟩
  · simp [notify, hok, h1]
  · simp [notify, hok, h2, List.cons_append]
  · simp [notify, h3]

/-- Witness for C6: one data source, the second send (the WhatsApp message)
raises; only the SMS goes out, the log stops inside the first block and the
exception is the handler result. -/
theorem C6_failed_send_aborts_witness :
    1 < 3 * [dsEx].length
    ∧ ((notify cfgEx (failAt 1 (fun n => "SID" ++ toString n)) "t0" [dsEx] 1 "POST").1
        = ((notify cfgEx (okOutcome (fun n => "SID" ++ toString n)) "t0" [dsEx] 1 "POST").1).take 1
      ∧ (∃ t, (notify cfgEx (okOutcome (fun n => "SID" ++ toString n)) "t0" [dsEx] 1 "POST").2.1
          = (notify cfgEx (failAt 1 (fun n => "SID" ++ toString n)) "t0" [dsEx] 1 "POST").2.1 ++ t)
      ∧ (notify cfgEx (failAt 1 (fun n => "SID" ++ toString n)) "t0" [dsEx] 1 "POST").2.2
          = Except.error "TwilioRestException") :=
  ⟨by decide,
   C6_failed_send_aborts cfgEx (fun n => "SID" ++ toString n) "t0" [dsEx] 1 1 (by decide)⟩

/-- C7: method dispatch on the two routes. POST performs the side-effecting
action exactly once (one token encoding on /broadcast, one header-writing
batch on /notifier); GET performs no action and redirects to "/"; any method
other than GET and POST performs no action and returns the body
"400 Bad Request: method not supported" whose actual HTTP status is 200,
not 400. -/
theorem C7_method_dispatch (cfg : Config) (st : Nat) (sjti : String) (t : Nat)
    (twilio : Nat → Except String String) (now : String) (dss : List DataSource)
    (total : Nat) (m : String) (hg : m ≠ "GET") (hp : m ≠ "POST") :
    ((broadcast cfg st sjti "POST" t).1.filter isEncodeEvent).length = 1
    ∧ ((notify cfg twilio now dss total "POST").2.1.filter isHeaderWrite).length = 1
    ∧ broadcast cfg st sjti "GET" t = ([], Except.ok (HResponse.redirectTo "/"))
    ∧ notify cfg twilio now dss total "GET"
        = ([], [], Except.ok (HResponse.redirectTo "/"))
    ∧ broadcast cfg st sjti m t
        = ([], Except.ok (HResponse.text "400 Bad Request: method not supported"))
    ∧ notify cfg twilio now dss total m
        = ([], [], Except.ok (HResponse.text "400 Bad Request: method not supported"))
    ∧ statusOf (HResponse.text "400 Bad Request: method not supported") = 200 := by
  have hnh := notifyLoop_no_header cfg twilio dss
  refine ⟨?_, ?_, ?_, ?_, ?_, ?_, rfl⟩
  · simp only [broadcast, reduceIte]
    split <;> simp [isEncodeEvent, List.filter]
  · simp only [notify, reduceIte]
    simp [List.filter_cons, isHeaderWrite, hnh]
  · unfold broadcast
    rw [if_neg (by decide), if_pos rfl]
  · unfold notify
    rw [if_neg (by decide), if_pos rfl]
  · unfold broadcast
    rw [if_neg hp, if_neg hg]
  · unfold notify
    rw [if_neg hp, if_neg hg]

/-- Witness for C7 with the unsupported method PUT and concrete inputs. -/
theorem C7_method_dispatch_witness :
    ("PUT" : String) ≠ "GET"
    ∧ ("PUT" : String) ≠ "POST"
    ∧ (((broadcast cfgEx 0 "5f2c-uuid" "POST" 10).1.filter isEncodeEvent).length = 1
      ∧ ((notify cfgEx (okOutcome (fun _ => "SID0")) "t0" [dsEx] 1 "POST").2.1.filter
            isHeaderWrite).length = 1
      ∧ broadcast cfgEx 0 "5f2c-uuid" "GET" 10 = ([], Except.ok (HResponse.redirectTo "/"))
      ∧ notify cfgEx (okOutcome (fun _ => "SID0")) "t0" [dsEx] 1 "GET"
          = ([], [], Except.ok (HResponse.redirectTo "/"))
      ∧ broadcast cfgEx 0 "5f2c-uuid" "PUT" 10
          = ([], Except.ok (HResponse.text "400 Bad Request: method not supported"))
      ∧ notify cfgEx (okOutcome (fun _ => "SID0")) "t0" [dsEx] 1 "PUT"
          = ([], [], Except.ok (HResponse.text "400 Bad Request: method not supported"))
      ∧ statusOf (HResponse.text "400 Bad Request: method not supported") = 200) :=
  ⟨by decide, by decide,
   C7_method_dispatch cfgEx 0 "5f2c-uuid" 10 (okOutcome (fun _ => "SID0")) "t0" [dsEx] 1
     "PUT" (by decide) (by decide)⟩

/-- C8: the Broadcast Updater first encodes the signed token, then
authenticates to obtain the API session key, then fetches the site's
broadcasts, and triggers the update on the broadcast found for the given
workbook with both boolean flags false; for a workbook identifier matching
no broadcast it returns an error and performs no update step at all. -/
theorem C8_broadcast_updater (cfg : Config) (st : Nat) (sjti : String)
    (srv : TableauRestApi) (wid : String) :
    (∀ b, srv.site_broadcasts.find? (fun x => x.workbook_id == wid) = some b →
      update cfg st sjti srv wid
        = ([UpdateStep.encoded (issuedToken cfg st sjti),
            UpdateStep.authed (srv.session_key (issuedToken cfg st sjti)),
            UpdateStep.fetchedBroadcasts srv.site_broadcasts,
            UpdateStep.updatedBroadcast
              { api_key := srv.session_key (issuedToken cfg st sjti),
                target := b, flag1 := false, flag2 := false }],
           Except.ok ()))
    ∧ (srv.site_broadcasts.find? (fun x => x.workbook_id == wid) = none →
        (update cfg st sjti srv wid).2
            = Except.error ("no broadcast found for workbook " ++ wid)
        ∧ (update cfg st sjti srv wid).1.filter isUpdatedStep = []) := by
  constructor
  · intro b hb
    simp [update, update_broadcast, hb]
  · intro hn
    constructor <;> simp [update, update_broadcast, hn, isUpdatedStep, List.filter]

/-- Witness for C8: a site with exactly one broadcast for workbook "wb-1";
updating "wb-1" triggers the update on it with both flags false, and
updating the unknown workbook "nope" fails with no update step. -/
theorem C8_broadcast_updater_witness :
    ([bEx].find? (fun x => x.workbook_id == "wb-1") = some bEx)
    ∧ update cfgEx 0 "5f2c-uuid" srvEx "wb-1"
        = ([UpdateStep.encoded (issuedToken cfgEx 0 "5f2c-uuid"),
            UpdateStep.authed "api-key-1",
            UpdateStep.fetchedBroadcasts [bEx],
            UpdateStep.updatedBroadcast
              { api_key := "api-key-1", target := bEx, flag1 := false, flag2 := false }],
           Except.ok ())
    ∧ ((update cfgEx 0 "5f2c-uuid" srvEx "nope").2
          = Except.error ("no broadcast found for workbook " ++ "nope")
        ∧ (update cfgEx 0 "5f2c-uuid" srvEx "nope").1.filter isUpdatedStep = []) :=
  ⟨by decide,
   (C8_broadcast_updater cfgEx 0 "5f2c-uuid" srvEx "wb-1").1 bEx (by decide),
   (C8_broadcast_updater cfgEx 0 "5f2c-uuid" srvEx "nope").2 (by decide)⟩

/-- C9: the count in the notifier's header log line is the pagination
item's site-wide total, while the loop sends one message triple per element
of the returned page; with every send succeeding, the header count equals
the number of triples actually sent exactly when the page holds every data
source on the site (total_available = page length). -/
theorem C9_header_total_vs_page (cfg : Config) (sids : Nat → String)
    (now : String) (dss : List DataSource) (total : Nat) :
    (notify cfg (okOutcome sids) now dss total "POST").2.1.head?
        = some (LogWrite.header now total)
    ∧ (notify cfg (okOutcome sids) now dss total "POST").1.length = 3 * dss.length
    ∧ (3 * total = (notify cfg (okOutcome sids) now dss total "POST").1.length
        ↔ total = dss.length) := by
  have hok := notifyLoop_ok cfg sids dss
  have hlen := tripleMsgs_length cfg dss
  refine ⟨?_, ?_, ?_⟩
  · simp [notify, hok]
  · simp [notify, hok, hlen]
  · simp only [notify, reduceIte]
    simp [hok, hlen]

/-- C10: for every data source the notifier processes, the single string
built from its name, description and last-updated time is both the SMS
body, the WhatsApp body, and the spoken text of the voice call (wrapped in
TwiML); the three channels never carry different texts for one data
source. -/
theorem C10_same_text_three_channels (cfg : Config) (sids : Nat → String)
    (now : String) (dss : List DataSource) (total : Nat) :
    (notify cfg (okOutcome sids) now dss total "POST").1 = tripleMsgs cfg dss
    ∧ ∀ ds : DataSource,
        (smsMsg cfg (msgStr ds)).payload = msgStr ds
        ∧ (waMsg cfg (msgStr ds)).payload = msgStr ds
        ∧ (callMsg cfg (msgStr ds)).payload = sayText (msgStr ds) :=
  ⟨by simp [notify, notifyLoop_ok], fun ds => ⟨rfl, rfl, rfl⟩⟩

end TW
